import Mathlib

/-!
Shallow embedding of the hibernate/wake control logic of the
`spin_down_when_not_used` repository.

The two authoritative runtime programs (the files the CDK constructs deploy)
are `src/lambdas/shutdown/lambda.mjs` and `src/lambdas/startup/lambda.mjs`.
We model:

* the control-plane state the lambdas mutate (listener rules, ECS desired
  count, RDS instance status) as an explicit state record,
* each handler as a pure state transformer that also emits a trace of the
  control-plane calls it issues,
* the request-replay loop `forwardRequestToEcsWithRetry` as a recursion over
  a finite script of backend attempt outcomes (each entry is what one `fetch`
  attempt produced; exhausting the script models the invocation being killed
  by the external Lambda timeout before any response was returned).

Machine integers do not overflow in any of the modelled code paths (counts
are tiny non-negative integers), so `Nat` is used throughout.
-/

namespace SpinDown

/-- Prefix test on character lists (Boolean, structural). -/
def charListHasPre : List Char → List Char → Bool
  | [], _ => true
  | _ :: _, [] => false
  | c :: cs, d :: ds => (c == d) && charListHasPre cs ds

/-- Substring containment on character lists: does `pat` occur contiguously in `s`? -/
def containsSub : List Char → List Char → Bool
  | [], pat => pat.isEmpty
  | c :: rest, pat => charListHasPre pat (c :: rest) || containsSub rest pat

/-- Model of JavaScript `String.prototype.includes`. -/
def strContains (s pat : String) : Bool :=
  containsSub s.toList pat.toList

/-- A listener rule as the lambdas see it: its ARN, the type of its first
action, the target-group ARN of that action (`""` models a missing
`TargetGroupArn`, which is falsy in JavaScript), and its numeric priority. -/
structure Rule where
  ruleArn : String
  actionType : String
  targetGroupArn : String
  priority : Nat
deriving DecidableEq, Repr

/-- Predicate from both lambdas' `swapListenerRulePriorities`: a forward rule
whose target-group ARN is present and contains `"Lambd"`. -/
def isLambdaRule (r : Rule) : Bool :=
  (r.actionType == "forward") && !(r.targetGroupArn == "") &&
    strContains r.targetGroupArn "Lambd"

/-- Predicate from both lambdas' `swapListenerRulePriorities`: a forward rule
whose target-group ARN is present and does not contain `"Lambd"`. -/
def isEcsRule (r : Rule) : Bool :=
  (r.actionType == "forward") && !(r.targetGroupArn == "") &&
    !(strContains r.targetGroupArn "Lambd")

/-- Effect of `ModifyRule`/`SetRulePriorities` on one rule: set the priority
of the rule identified by `arn`. -/
def setOne (arn : String) (p : Nat) (r : Rule) : Rule :=
  if r.ruleArn = arn then { r with priority := p } else r

/-- Set the priority of the rule with the given ARN across the rule list. -/
def setRulePriority (arn : String) (p : Nat) (rs : List Rule) : List Rule :=
  rs.map (setOne arn p)

/-- Rule-list effect of the shutdown lambda's `swapListenerRulePriorities`
(`src/lambdas/shutdown/lambda.mjs` lines 50-104): find the Lambda rule and the
ECS rule; if both are found, `ModifyRule` the Lambda rule to priority 1 and
then the ECS rule to priority 2; otherwise leave everything unchanged. -/
def shutdownSwapRules (rs : List Rule) : List Rule :=
  match rs.find? isLambdaRule, rs.find? isEcsRule with
  | some lr, some er => setRulePriority er.ruleArn 2 (setRulePriority lr.ruleArn 1 rs)
  | _, _ => rs

/-- Rule-list effect of the startup lambda's `swapListenerRulePriorities`
(`src/lambdas/startup/lambda.mjs` lines 114-199): find the Lambda rule and the
ECS rule; if both are found, `SetRulePriorities` assigns the ECS rule
priority 1 and the Lambda rule priority 2; otherwise leave everything
unchanged. -/
def startupSwapRules (rs : List Rule) : List Rule :=
  match rs.find? isLambdaRule, rs.find? isEcsRule with
  | some lr, some er => setRulePriority lr.ruleArn 2 (setRulePriority er.ruleArn 1 rs)
  | _, _ => rs

/-- Body of a modelled HTTP response: either raw text (a forwarded backend
body) or a JSON object with named fields (the synthesised error body). -/
inductive RespBody where
  | text (s : String)
  | jsonObj (fields : List (String × String))
deriving DecidableEq, Repr

/-- Response value a handler returns to the caller. -/
structure HttpResponse where
  statusCode : Nat
  headers : List (String × String)
  body : RespBody
deriving DecidableEq, Repr

/-- Field names of a JSON-object body, `none` for a raw-text body. -/
def jsonFieldNames : RespBody → Option (List String)
  | RespBody.text _ => none
  | RespBody.jsonObj fields => some (fields.map Prod.fst)

/-- The success test of the replay loop: `response.status >= 200 && response.status < 300`. -/
def is2xx (n : Nat) : Bool :=
  decide (200 ≤ n) && decide (n < 300)

/-- Outcome of one `fetch` attempt against the backend, as scripted by the
environment: either an HTTP response or a thrown exception (whose
`networkLevel` flag records whether it was a connection-level failure; the
deployed code never inspects this distinction). -/
inductive Attempt where
  | httpResponse (status : Nat) (body : String)
  | fetchError (networkLevel : Bool)
deriving DecidableEq, Repr

/-- Response the replay loop builds from a 2xx backend response
(`src/lambdas/startup/lambda.mjs` lines 253-260); backend headers are not
modelled beyond the defaulted Content-Type. -/
def mkForwardResponse (status : Nat) (body : String) : HttpResponse :=
  { statusCode := status
    headers := [("Content-Type", "application/json")]
    body := RespBody.text body }

/-- `forwardRequestToEcsWithRetry` (`src/lambdas/startup/lambda.mjs` lines
201-281) over a finite script of attempt outcomes.  The loop is
`while (true)`: a 2xx status returns immediately, every other status and every
thrown error sleeps and retries.  Result: number of attempts issued, and
`some` response if one was returned before the script (the invocation's
lifetime) ran out, else `none`. -/
def forwardRequestToEcsWithRetry : List Attempt → Nat × Option HttpResponse
  | [] => (0, none)
  | Attempt.httpResponse st body :: rest =>
    if is2xx st then (1, some (mkForwardResponse st body))
    else
      let (n, r) := forwardRequestToEcsWithRetry rest
      (n + 1, r)
  | Attempt.fetchError _ :: rest =>
    let (n, r) := forwardRequestToEcsWithRetry rest
    (n + 1, r)

/-- One `DescribeServices` observation of the ECS service. -/
structure EcsObs where
  status : String
  desiredCount : Nat
  runningCount : Nat
  pendingCount : Nat
deriving DecidableEq, Repr

/-- The readiness test of `waitForEcsServiceReady` (`src/lambdas/startup/lambda.mjs`
lines 28-30): `status === 'ACTIVE' && runningCount >= 1 && pendingCount === 0`. -/
def ecsServiceReady (o : EcsObs) : Bool :=
  (o.status == "ACTIVE") && decide (1 ≤ o.runningCount) && (o.pendingCount == 0)

/-- `waitForEcsServiceReady` (`src/lambdas/startup/lambda.mjs` lines 9-45)
over a fuel bound (`maxAttempts`, 30 in the code) and a script of
`DescribeServices` results (`none` models a thrown describe error, which the
code logs and retries).  Returns `true` on the first ready observation;
`false` models the `throw new Error(...)` after the attempt budget (or the
scripted world) is exhausted. -/
def waitForEcsServiceReady : Nat → List (Option EcsObs) → Bool
  | 0, _ => false
  | _ + 1, [] => false
  | n + 1, o :: rest =>
    match o with
    | some obs => if ecsServiceReady obs then true else waitForEcsServiceReady n rest
    | none => waitForEcsServiceReady n rest

/-- The fake control-plane state both handlers mutate: the listener's rules,
the ECS service's desired count, and the RDS instance status string. -/
structure ControlPlane where
  rules : List Rule
  desiredCount : Nat
  dbStatus : String
deriving DecidableEq, Repr

/-- Control-plane calls a handler issues, for trace-level statements. -/
inductive CPEvent where
  | updateService (n : Nat)
  | describeDB
  | stopDB
  | startDB
  | describeRules
  | modifyRule (arn : String) (p : Nat)
  | describeServices
deriving DecidableEq, Repr

/-- The shutdown lambda's RDS step (`src/lambdas/shutdown/lambda.mjs` lines
21-37): describe the instance; if its status is `"available"`, issue
`StopDBInstance` (the fault-free fake lets the stop converge to `"stopped"`);
any other status is left untouched. -/
def dbStopStep (s : ControlPlane) : List CPEvent × ControlPlane :=
  if s.dbStatus = "available" then
    ([CPEvent.describeDB, CPEvent.stopDB], { s with dbStatus := "stopped" })
  else
    ([CPEvent.describeDB], s)

/-- The startup lambda's RDS step (`src/lambdas/startup/lambda.mjs` lines
60-76): describe the instance; if its status is `"stopped"`, issue
`StartDBInstance` (the fault-free fake lets the start converge to
`"available"`); any other status is left untouched. -/
def dbStartStep (s : ControlPlane) : List CPEvent × ControlPlane :=
  if s.dbStatus = "stopped" then
    ([CPEvent.describeDB, CPEvent.startDB], { s with dbStatus := "available" })
  else
    ([CPEvent.describeDB], s)

/-- Trace and state effect of the shutdown lambda's rule swap: describe the
rules, and if both managed rules are discovered, modify the Lambda rule to
priority 1 and the ECS rule to priority 2. -/
def swapStepShutdown (s : ControlPlane) : List CPEvent × ControlPlane :=
  match s.rules.find? isLambdaRule, s.rules.find? isEcsRule with
  | some lr, some er =>
    ([CPEvent.describeRules, CPEvent.modifyRule lr.ruleArn 1, CPEvent.modifyRule er.ruleArn 2],
      { s with rules := setRulePriority er.ruleArn 2 (setRulePriority lr.ruleArn 1 s.rules) })
  | _, _ => ([CPEvent.describeRules], s)

/-- Trace and state effect of the startup lambda's rule swap: describe the
rules, and if both managed rules are discovered, `SetRulePriorities` assigns
the ECS rule priority 1 and the Lambda rule priority 2. -/
def swapStepStartup (s : ControlPlane) : List CPEvent × ControlPlane :=
  match s.rules.find? isLambdaRule, s.rules.find? isEcsRule with
  | some lr, some er =>
    ([CPEvent.describeRules, CPEvent.modifyRule er.ruleArn 1, CPEvent.modifyRule lr.ruleArn 2],
      { s with rules := setRulePriority lr.ruleArn 2 (setRulePriority er.ruleArn 1 s.rules) })
  | _, _ => ([CPEvent.describeRules], s)

/-- Result of one shutdown handler run. -/
structure ShutdownResult where
  trace : List CPEvent
  state : ControlPlane
  threw : Bool
deriving DecidableEq, Repr

/-- The shutdown handler (`src/lambdas/shutdown/lambda.mjs` lines 9-48).
`updOk` scripts whether the `UpdateService` call succeeds.  On success the
handler proceeds: set desired count to 0, then the best-effort RDS stop step,
then the best-effort rule swap.  If `UpdateService` throws, the outer catch
rethrows (`threw = true`) and no further call is issued. -/
def shutdownHandler (updOk : Bool) (s : ControlPlane) : ShutdownResult :=
  if updOk then
    let s1 := { s with desiredCount := 0 }
    let d := dbStopStep s1
    let w := swapStepShutdown d.2
    ⟨CPEvent.updateService 0 :: (d.1 ++ w.1), w.2, false⟩
  else
    ⟨[CPEvent.updateService 0], s, true⟩

/-- Result of one startup handler run. -/
structure StartupResult where
  response : Option HttpResponse
  state : ControlPlane
  replayAttempts : Nat
deriving DecidableEq, Repr

/-- The 503 error response of the startup handler's catch block
(`src/lambdas/startup/lambda.mjs` lines 100-110). -/
def errorResponse (errMsg : String) : HttpResponse :=
  { statusCode := 503
    headers := [("Content-Type", "application/json"), ("Retry-After", "30")]
    body := RespBody.jsonObj
      [("message", "Service is starting up, please try again in a moment"), ("error", errMsg)] }

/-- The startup handler (`src/lambdas/startup/lambda.mjs` lines 47-112).
`updErr` scripts the `UpdateService` call (`some m` = throws with message
`m`); `polls` scripts the `DescribeServices` results seen by
`waitForEcsServiceReady`; `script` scripts the backend's answers to the
replay attempts.  Order: set desired count to 1, best-effort RDS start,
best-effort rule swap, readiness wait (30 attempts; exhaustion throws into
the catch block, which returns the 503 error response), then the replay
loop.  `response = none` models the invocation being killed by the external
timeout while the replay loop was still running. -/
def startupHandler (updErr : Option String) (s : ControlPlane)
    (polls : List (Option EcsObs)) (script : List Attempt) : StartupResult :=
  match updErr with
  | some m => ⟨some (errorResponse m), s, 0⟩
  | none =>
    let s1 := { s with desiredCount := 1 }
    let s2 := (dbStartStep s1).2
    let s3 := (swapStepStartup s2).2
    if waitForEcsServiceReady 30 polls then
      let f := forwardRequestToEcsWithRetry script
      ⟨f.2, s3, f.1⟩
    else
      ⟨some (errorResponse "ECS service did not become ready within timeout period"), s3, 0⟩

/-! ### Fixtures: a concrete awake control-plane state -/

/-- The managed placeholder (Lambda) rule in the concrete examples. -/
def lamR : Rule := ⟨"arn-lam", "forward", "tg-LambdTG-x", 2⟩

/-- The managed backend (ECS) rule in the concrete examples. -/
def ecsR : Rule := ⟨"arn-ecs", "forward", "tg-ecs", 1⟩

/-- A concrete awake state: backend rule on top, desired count 1, database
available. -/
def sEx : ControlPlane := ⟨[lamR, ecsR], 1, "available"⟩

/-! ### Helper lemmas -/

theorem setOne_ruleArn (a : String) (p : Nat) (r : Rule) :
    (setOne a p r).ruleArn = r.ruleArn := by
  unfold setOne; split <;> rfl

theorem setOne_isLambdaRule (a : String) (p : Nat) (r : Rule) :
    isLambdaRule (setOne a p r) = isLambdaRule r := by
  unfold setOne isLambdaRule; split <;> rfl

theorem setOne_isEcsRule (a : String) (p : Nat) (r : Rule) :
    isEcsRule (setOne a p r) = isEcsRule r := by
  unfold setOne isEcsRule; split <;> rfl

theorem find?_setRulePriority (a : String) (p : Nat) (rs : List Rule)
    (q : Rule → Bool) (hq : ∀ r, q (setOne a p r) = q r) :
    (setRulePriority a p rs).find? q = (rs.find? q).map (setOne a p) := by
  unfold setRulePriority
  rw [List.find?_map]
  have h : q ∘ setOne a p = q := funext hq
  rw [h]

theorem map_eq_self_of_mem (l : List Rule) (f : Rule → Rule)
    (h : ∀ x ∈ l, f x = x) : l.map f = l := by
  induction l with
  | nil => rfl
  | cons a t ih =>
    simp only [List.map_cons, h a (by simp)]
    rw [ih (fun x hx => h x (by simp [hx]))]

/-- The two managed rules, when both are discovered, are distinct values:
the Lambda predicate demands the target-group ARN contain `"Lambd"`, the
ECS predicate demands it not. -/
theorem lambdaRule_ne_ecsRule (lr er : Rule)
    (hl : isLambdaRule lr = true) (he : isEcsRule er = true) : lr ≠ er := by
  intro hcontra
  subst hcontra
  unfold isLambdaRule at hl
  unfold isEcsRule at he
  simp only [Bool.and_eq_true, Bool.not_eq_true'] at hl he
  rw [hl.2] at he
  exact absurd he.2 (by simp)

/-- With pairwise-distinct rule ARNs, any member sharing the found Lambda
rule's ARN is that rule itself (and likewise for any found rule). -/
theorem mem_eq_of_arn_eq (rs : List Rule) (hn : (rs.map Rule.ruleArn).Nodup)
    (r x : Rule) (hr : r ∈ rs) (hx : x ∈ rs) (h : r.ruleArn = x.ruleArn) : r = x :=
  List.inj_on_of_nodup_map hn hr hx h

/-- A retried attempt outcome: any non-2xx HTTP status, or any thrown error. -/
def retriedAttempt : Attempt → Bool
  | Attempt.httpResponse st _ => !is2xx st
  | Attempt.fetchError _ => true

theorem forward_cons_retried (a : Attempt) (rest : List Attempt)
    (h : retriedAttempt a = true) :
    forwardRequestToEcsWithRetry (a :: rest) =
      ((forwardRequestToEcsWithRetry rest).1 + 1, (forwardRequestToEcsWithRetry rest).2) := by
  rcases hfr : forwardRequestToEcsWithRetry rest with ⟨n, q⟩
  cases a with
  | httpResponse st body =>
    have h' : is2xx st = false := by simpa [retriedAttempt] using h
    simp only [forwardRequestToEcsWithRetry, h', Bool.false_eq_true, if_false, hfr]
  | fetchError b =>
    simp only [forwardRequestToEcsWithRetry, hfr]

theorem forward_cons_2xx (st : Nat) (body : String) (rest : List Attempt)
    (h : is2xx st = true) :
    forwardRequestToEcsWithRetry (Attempt.httpResponse st body :: rest) =
      (1, some (mkForwardResponse st body)) := by
  simp only [forwardRequestToEcsWithRetry, h, if_true]

theorem forward_some_is2xx (script : List Attempt) (r : HttpResponse)
    (h : (forwardRequestToEcsWithRetry script).2 = some r) :
    is2xx r.statusCode = true := by
  induction script with
  | nil => simp [forwardRequestToEcsWithRetry] at h
  | cons a rest ih =>
    by_cases ha : retriedAttempt a = true
    · rw [forward_cons_retried a rest ha] at h
      exact ih h
    · cases a with
      | httpResponse st body =>
        have h2 : is2xx st = true := by
          simpa [retriedAttempt] using ha
        rw [forward_cons_2xx st body rest h2] at h
        obtain rfl : mkForwardResponse st body = r := by simpa using h
        exact h2
      | fetchError b => simp [retriedAttempt] at ha

theorem forward_all_retried (script : List Attempt)
    (h : ∀ a ∈ script, retriedAttempt a = true) :
    forwardRequestToEcsWithRetry script = (script.length, none) := by
  induction script with
  | nil => rfl
  | cons a rest ih =>
    rw [forward_cons_retried a rest (h a (by simp)),
      ih (fun x hx => h x (by simp [hx]))]
    rfl

theorem forward_first_success (pre : List Attempt) (st : Nat) (body : String)
    (post : List Attempt) (hpre : ∀ a ∈ pre, retriedAttempt a = true)
    (h2 : is2xx st = true) :
    forwardRequestToEcsWithRetry (pre ++ Attempt.httpResponse st body :: post) =
      (pre.length + 1, some (mkForwardResponse st body)) := by
  induction pre with
  | nil => simpa using forward_cons_2xx st body post h2
  | cons a t ih =>
    rw [List.cons_append, forward_cons_retried a _ (hpre a (by simp)),
      ih (fun x hx => hpre x (by simp [hx]))]
    rfl

theorem waitForEcsServiceReady_eq_any (n : Nat) (polls : List (Option EcsObs)) :
    waitForEcsServiceReady n polls =
      (polls.take n).any (fun o => match o with
        | some obs => ecsServiceReady obs
        | none => false) := by
  induction n generalizing polls with
  | zero => cases polls <;> rfl
  | succ m ih =>
    cases polls with
    | nil => rfl
    | cons o rest =>
      cases o with
      | some obs =>
        unfold waitForEcsServiceReady
        by_cases h : ecsServiceReady obs = true
        · simp [h]
        · simp only [Bool.not_eq_true] at h
          simp [h, ih rest]
      | none =>
        unfold waitForEcsServiceReady
        simp [ih rest]

theorem setOne_skip (a : String) (p : Nat) (r : Rule) (h : r.ruleArn ≠ a) :
    setOne a p r = r := by
  unfold setOne; rw [if_neg h]

theorem setOne_hit (a : String) (p : Nat) (r : Rule) (h : r.ruleArn = a) :
    setOne a p r = { r with priority := p } := by
  unfold setOne; rw [if_pos h]

theorem withPriority_self (r : Rule) : ({ r with priority := r.priority } : Rule) = r := rfl

/-- Two consecutive applications of the swap's pair of priority writes are
absorbed by one, pointwise on a rule. -/
theorem setOne_setOne_idem (a1 a2 : String) (p1 p2 : Nat) (r : Rule) :
    setOne a2 p2 (setOne a1 p1 (setOne a2 p2 (setOne a1 p1 r))) =
      setOne a2 p2 (setOne a1 p1 r) := by
  obtain ⟨arn, act, tg, pr⟩ := r
  by_cases h1 : arn = a1
  · subst h1
    by_cases h2 : arn = a2
    · subst h2
      simp [setOne]
    · simp [setOne, h2]
  · by_cases h2 : arn = a2
    · subst h2
      simp [setOne, h1]
    · simp [setOne, h1, h2]

/-- Pointwise round trip: the shutdown writes followed by the startup writes
restore a rule whose priority already matched its awake value. -/
theorem roundPointwise (lA eA : String) (hne : lA ≠ eA) (r : Rule)
    (hl2 : r.ruleArn = lA → r.priority = 2)
    (he1 : r.ruleArn = eA → r.priority = 1) :
    setOne lA 2 (setOne eA 1 (setOne eA 2 (setOne lA 1 r))) = r := by
  obtain ⟨arn, act, tg, pr⟩ := r
  by_cases hA : arn = lA
  · subst hA
    have hpr : pr = 2 := hl2 rfl
    subst hpr
    have hAe : ¬arn = eA := hne
    simp [setOne, hAe]
  · by_cases hB : arn = eA
    · subst hB
      have hpr : pr = 1 := he1 rfl
      subst hpr
      simp [setOne, hA]
    · simp [setOne, hA, hB]

/-- List-level absorption of a repeated pair of priority writes. -/
theorem swap_core_idem (a1 a2 : String) (p1 p2 : Nat) (rs : List Rule) :
    setRulePriority a2 p2 (setRulePriority a1 p1
        (setRulePriority a2 p2 (setRulePriority a1 p1 rs))) =
      setRulePriority a2 p2 (setRulePriority a1 p1 rs) := by
  induction rs with
  | nil => rfl
  | cons r t ih =>
    simp only [setRulePriority, List.map_cons] at ih ⊢
    rw [setOne_setOne_idem a1 a2 p1 p2 r]
    exact congrArg _ ih

/-- A rule search by action shape is unaffected by the swap's priority
writes. -/
theorem find?_swap (q : Rule → Bool) (hq : ∀ a p r, q (setOne a p r) = q r)
    (a1 a2 : String) (p1 p2 : Nat) (rs : List Rule) :
    (setRulePriority a2 p2 (setRulePriority a1 p1 rs)).find? q =
      (rs.find? q).map (fun r => setOne a2 p2 (setOne a1 p1 r)) := by
  rw [find?_setRulePriority a2 p2 _ q (hq a2 p2),
    find?_setRulePriority a1 p1 _ q (hq a1 p1)]
  cases rs.find? q <;> rfl

theorem shutdownSwapRules_eq (rs : List Rule) (lr er : Rule)
    (hl : rs.find? isLambdaRule = some lr) (he : rs.find? isEcsRule = some er) :
    shutdownSwapRules rs = setRulePriority er.ruleArn 2 (setRulePriority lr.ruleArn 1 rs) := by
  unfold shutdownSwapRules; rw [hl, he]

theorem startupSwapRules_eq (rs : List Rule) (lr er : Rule)
    (hl : rs.find? isLambdaRule = some lr) (he : rs.find? isEcsRule = some er) :
    startupSwapRules rs = setRulePriority lr.ruleArn 2 (setRulePriority er.ruleArn 1 rs) := by
  unfold startupSwapRules; rw [hl, he]

/-- The two rules found by the swap's discovery are distinct ARNs when the
rule list carries pairwise-distinct ARNs. -/
theorem found_arns_ne (rs : List Rule) (lr er : Rule)
    (hn : (rs.map Rule.ruleArn).Nodup)
    (hl : rs.find? isLambdaRule = some lr) (he : rs.find? isEcsRule = some er) :
    lr.ruleArn ≠ er.ruleArn := by
  intro h
  have hlm := List.mem_of_find?_eq_some hl
  have hem := List.mem_of_find?_eq_some he
  have heq : lr = er := mem_eq_of_arn_eq rs hn lr er hlm hem h
  exact lambdaRule_ne_ecsRule lr er (List.find?_some hl) (List.find?_some he) heq

/-- Shutdown's priority writes followed by startup's priority writes restore
an awake rule list (placeholder rule at priority 2, backend rule at
priority 1, pairwise-distinct ARNs). -/
theorem round_trip_rules (rs : List Rule) (lr er : Rule)
    (hn : (rs.map Rule.ruleArn).Nodup)
    (hl : rs.find? isLambdaRule = some lr) (he : rs.find? isEcsRule = some er)
    (hlp : lr.priority = 2) (hep : er.priority = 1) :
    setRulePriority lr.ruleArn 2 (setRulePriority er.ruleArn 1
        (setRulePriority er.ruleArn 2 (setRulePriority lr.ruleArn 1 rs))) = rs := by
  have hne : lr.ruleArn ≠ er.ruleArn := found_arns_ne rs lr er hn hl he
  have hlm := List.mem_of_find?_eq_some hl
  have hem := List.mem_of_find?_eq_some he
  simp only [setRulePriority, List.map_map]
  apply map_eq_self_of_mem
  intro r hr
  simp only [Function.comp]
  refine roundPointwise lr.ruleArn er.ruleArn hne r ?_ ?_
  · intro h1
    have : r = lr := mem_eq_of_arn_eq rs hn r lr hr hlm h1
    rw [this, hlp]
  · intro h2
    have : r = er := mem_eq_of_arn_eq rs hn r er hr hem h2
    rw [this, hep]

theorem dbStopStep_avail (s : ControlPlane) (h : s.dbStatus = "available") :
    dbStopStep s = ([CPEvent.describeDB, CPEvent.stopDB], { s with dbStatus := "stopped" }) := by
  unfold dbStopStep; rw [if_pos h]

theorem dbStartStep_stopped (s : ControlPlane) (h : s.dbStatus = "stopped") :
    dbStartStep s = ([CPEvent.describeDB, CPEvent.startDB], { s with dbStatus := "available" }) := by
  unfold dbStartStep; rw [if_pos h]

/-- Final state of a fault-free shutdown run on an available database with
both rules discoverable. -/
theorem shutdownState_eq (s : ControlPlane) (lr er : Rule)
    (hl : s.rules.find? isLambdaRule = some lr)
    (he : s.rules.find? isEcsRule = some er)
    (hdb : s.dbStatus = "available") :
    (shutdownHandler true s).state =
      { rules := setRulePriority er.ruleArn 2 (setRulePriority lr.ruleArn 1 s.rules),
        desiredCount := 0, dbStatus := "stopped" } := by
  simp only [shutdownHandler, if_true]
  rw [dbStopStep_avail { s with desiredCount := 0 } hdb]
  unfold swapStepShutdown
  have hr : ({ s with desiredCount := 0, dbStatus := "stopped" } : ControlPlane).rules
      = s.rules := rfl
  rw [hr, hl, he]

/-- Final state of a startup run (regardless of outcome) on a stopped
database with both rules discoverable. -/
theorem startupState_eq (t : ControlPlane) (lr er : Rule)
    (polls : List (Option EcsObs)) (script : List Attempt)
    (hl : t.rules.find? isLambdaRule = some lr)
    (he : t.rules.find? isEcsRule = some er)
    (hdb : t.dbStatus = "stopped") :
    (startupHandler none t polls script).state =
      { rules := setRulePriority lr.ruleArn 2 (setRulePriority er.ruleArn 1 t.rules),
        desiredCount := 1, dbStatus := "available" } := by
  simp only [startupHandler]
  rw [dbStartStep_stopped { t with desiredCount := 1 } hdb]
  unfold swapStepStartup
  have hr : ({ t with desiredCount := 1, dbStatus := "available" } : ControlPlane).rules
      = t.rules := rfl
  rw [hr, hl, he]
  by_cases hw : waitForEcsServiceReady 30 polls = true
  · rw [if_pos hw]
  · rw [if_neg hw]

/-! ### Claims -/

/-- C2 counterexample.  The claim says a 404 on the first replay attempt is
returned immediately as the final response after exactly 1 attempt.  In the
deployed code (`src/lambdas/startup/lambda.mjs` lines 261-265) every non-2xx
status is retried: against the script (404 then 200), the replay loop returns
the 200 response after 2 attempts, not the 404 after 1. -/
theorem C2_counterexample :
    forwardRequestToEcsWithRetry
        [Attempt.httpResponse 404 "not found", Attempt.httpResponse 200 "ok"]
      = (2, some (mkForwardResponse 200 "ok")) ∧
    forwardRequestToEcsWithRetry
        [Attempt.httpResponse 404 "not found", Attempt.httpResponse 200 "ok"]
      ≠ (1, some (mkForwardResponse 404 "not found")) := by
  constructor
  · decide
  · decide

/-- C2 (amended): a replay attempt that yields a non-2xx HTTP status (for
example 404) is never returned: the loop sleeps and continues with the next
attempt, and any response the replayer does return has a 2xx status. -/
theorem C2_non2xx_never_final :
    (∀ (st : Nat) (body : String) (rest : List Attempt), is2xx st = false →
      forwardRequestToEcsWithRetry (Attempt.httpResponse st body :: rest) =
        ((forwardRequestToEcsWithRetry rest).1 + 1, (forwardRequestToEcsWithRetry rest).2)) ∧
    (∀ (script : List Attempt) (r : HttpResponse),
      (forwardRequestToEcsWithRetry script).2 = some r → is2xx r.statusCode = true) := by
  constructor
  · intro st body rest h
    exact forward_cons_retried _ rest (by simp [retriedAttempt, h])
  · intro script r h
    exact forward_some_is2xx script r h

/-- C2 witness: the amended theorem applied at a 404 first attempt with no
further scripted attempts, and at a script whose only answer is a 200. -/
theorem C2_witness :
    forwardRequestToEcsWithRetry [Attempt.httpResponse 404 "not found"] =
      ((forwardRequestToEcsWithRetry []).1 + 1, (forwardRequestToEcsWithRetry []).2) ∧
    is2xx (mkForwardResponse 200 "ok").statusCode = true :=
  ⟨C2_non2xx_never_final.1 404 "not found" [] (by decide),
   C2_non2xx_never_final.2 [Attempt.httpResponse 200 "ok"]
     (mkForwardResponse 200 "ok") (by decide)⟩

/-- C3 counterexample.  The claim says a non-network exception during an
attempt makes the replayer return a synthetic 502 immediately, with no
further attempt.  In the deployed code every thrown error is caught, the loop
sleeps and retries (`src/lambdas/startup/lambda.mjs` lines 267-274): against
the script (non-network exception, then 200), replay returns the 200 after
2 attempts, and no 502 response is produced. -/
theorem C3_counterexample :
    forwardRequestToEcsWithRetry
        [Attempt.fetchError false, Attempt.httpResponse 200 "ok"]
      = (2, some (mkForwardResponse 200 "ok")) ∧
    Option.map HttpResponse.statusCode
        (forwardRequestToEcsWithRetry
          [Attempt.fetchError false, Attempt.httpResponse 200 "ok"]).2
      ≠ some 502 := by
  constructor
  · decide
  · decide

/-- C3 (amended): every exception raised while issuing an attempt — network
level or not — is retried: the loop continues with the next attempt, and the
replayer never returns a response with status 502 (it returns only 2xx
responses). -/
theorem C3_exception_always_retried :
    (∀ (b : Bool) (rest : List Attempt),
      forwardRequestToEcsWithRetry (Attempt.fetchError b :: rest) =
        ((forwardRequestToEcsWithRetry rest).1 + 1, (forwardRequestToEcsWithRetry rest).2)) ∧
    (∀ (script : List Attempt) (r : HttpResponse),
      (forwardRequestToEcsWithRetry script).2 = some r → r.statusCode ≠ 502) := by
  constructor
  · intro b rest
    exact forward_cons_retried _ rest (by simp [retriedAttempt])
  · intro script r h hcontra
    have h2 : is2xx r.statusCode = true := forward_some_is2xx script r h
    rw [hcontra] at h2
    exact absurd h2 (by decide)

/-- C3 witness: the amended theorem applied at a non-network exception first
attempt, and at a script answering 200 (whose response therefore is not a
502). -/
theorem C3_witness :
    forwardRequestToEcsWithRetry [Attempt.fetchError false] =
      ((forwardRequestToEcsWithRetry []).1 + 1, (forwardRequestToEcsWithRetry []).2) ∧
    (mkForwardResponse 200 "ok").statusCode ≠ 502 :=
  ⟨C3_exception_always_retried.1 false [],
   C3_exception_always_retried.2 [Attempt.httpResponse 200 "ok"]
     (mkForwardResponse 200 "ok") (by decide)⟩

/-- C4: the replay loop returns on the first attempt whose status is 2xx and
issues no attempt after it: for any script made of retried attempts followed
by a 2xx answer (and anything after it), the loop returns that 2xx response
having issued exactly (number of prior attempts + 1) attempts, independent of
what comes after. -/
theorem C4_first_2xx_terminates (pre : List Attempt) (st : Nat) (body : String)
    (post : List Attempt) (hpre : ∀ a ∈ pre, retriedAttempt a = true)
    (h2 : is2xx st = true) :
    forwardRequestToEcsWithRetry (pre ++ Attempt.httpResponse st body :: post) =
      (pre.length + 1, some (mkForwardResponse st body)) :=
  forward_first_success pre st body post hpre h2

/-- C4 witness: a backend scripted to answer 503 on attempts 1 and 2 and 200
on attempt 3 makes replay return the 200 response after exactly 3 attempts. -/
theorem C4_witness :
    forwardRequestToEcsWithRetry
        [Attempt.httpResponse 503 "unavailable", Attempt.httpResponse 503 "unavailable",
         Attempt.httpResponse 200 "hello"]
      = (3, some (mkForwardResponse 200 "hello")) :=
  C4_first_2xx_terminates
    [Attempt.httpResponse 503 "unavailable", Attempt.httpResponse 503 "unavailable"]
    200 "hello" [] (by decide) (by decide)

/-- C10: every response the startup handler returns has either a 2xx status
obtained from a backend response or the synthetic 503 of the error path; a
non-2xx backend response is never surfaced, because the replay loop retries
every non-2xx attempt without any internal attempt bound (a script of
retried outcomes only is consumed entirely without producing a response). -/
theorem C10_response_invariant :
    (∀ (updErr : Option String) (s : ControlPlane) (polls : List (Option EcsObs))
        (script : List Attempt) (r : HttpResponse),
      (startupHandler updErr s polls script).response = some r →
        is2xx r.statusCode = true ∨ r.statusCode = 503) ∧
    (∀ script : List Attempt, (∀ a ∈ script, retriedAttempt a = true) →
      forwardRequestToEcsWithRetry script = (script.length, none)) := by
  constructor
  · intro updErr s polls script r h
    cases updErr with
    | some m =>
      right
      simp only [startupHandler] at h
      obtain rfl : errorResponse m = r := by simpa using h
      rfl
    | none =>
      simp only [startupHandler] at h
      by_cases hw : waitForEcsServiceReady 30 polls = true
      · rw [if_pos hw] at h
        exact Or.inl (forward_some_is2xx script r h)
      · rw [if_neg hw] at h
        right
        obtain rfl : errorResponse _ = r := by simpa using h
        rfl
  · exact forward_all_retried

/-- C10 witness: the invariant applied to a run whose backend answers 200,
and the unbounded-retry part applied to an all-503 script. -/
theorem C10_witness :
    (is2xx (mkForwardResponse 200 "ok").statusCode = true ∨
      (mkForwardResponse 200 "ok").statusCode = 503) ∧
    forwardRequestToEcsWithRetry
        [Attempt.httpResponse 503 "a", Attempt.httpResponse 404 "b", Attempt.fetchError true]
      = (3, none) :=
  ⟨C10_response_invariant.1 none sEx [some ⟨"ACTIVE", 1, 1, 0⟩]
      [Attempt.httpResponse 200 "ok"] (mkForwardResponse 200 "ok") (by decide),
   C10_response_invariant.2
      [Attempt.httpResponse 503 "a", Attempt.httpResponse 404 "b", Attempt.fetchError true]
      (by decide)⟩

/-- C1 counterexample.  The claim says every shutdown run swaps the routing
rules first, then scales the backend to 0, then waits for the task count to
drain, then stops the database.  Running the deployed shutdown handler on a
concrete awake state shows: the first control-plane call is the desired-count
update (not the rule swap), no drain-wait poll (`DescribeServices`) is ever
issued, and the database stop precedes the rule modifications. -/
theorem C1_counterexample :
    (shutdownHandler true sEx).trace.head? = some (CPEvent.updateService 0) ∧
    CPEvent.describeServices ∉ (shutdownHandler true sEx).trace ∧
    (shutdownHandler true sEx).trace.indexOf CPEvent.stopDB <
      (shutdownHandler true sEx).trace.indexOf (CPEvent.modifyRule "arn-lam" 1) := by
  refine ⟨by decide, by decide, by decide⟩

/-- C1 (amended): every fault-free shutdown run on a state whose database is
available and whose two managed rules are both discoverable issues exactly:
the desired-count update to 0 first, then the database describe and stop,
then the rule describe and the two priority modifications (placeholder rule
to priority 1, backend rule to priority 2); there is no drain-wait step. -/
theorem C1_shutdown_sequence (s : ControlPlane) (lr er : Rule)
    (hl : s.rules.find? isLambdaRule = some lr)
    (he : s.rules.find? isEcsRule = some er)
    (hdb : s.dbStatus = "available") :
    (shutdownHandler true s).trace =
      [CPEvent.updateService 0, CPEvent.describeDB, CPEvent.stopDB,
       CPEvent.describeRules, CPEvent.modifyRule lr.ruleArn 1,
       CPEvent.modifyRule er.ruleArn 2] := by
  have hdb1 : dbStopStep { s with desiredCount := 0 } =
      ([CPEvent.describeDB, CPEvent.stopDB],
        { s with desiredCount := 0, dbStatus := "stopped" }) := by
    unfold dbStopStep
    have : ({ s with desiredCount := 0 } : ControlPlane).dbStatus = "available" := hdb
    rw [if_pos this]
  have hsw : (swapStepShutdown { s with desiredCount := 0, dbStatus := "stopped" }).1 =
      [CPEvent.describeRules, CPEvent.modifyRule lr.ruleArn 1,
       CPEvent.modifyRule er.ruleArn 2] := by
    unfold swapStepShutdown
    have hr : ({ s with desiredCount := 0, dbStatus := "stopped" } : ControlPlane).rules
        = s.rules := rfl
    rw [hr, hl, he]
  simp only [shutdownHandler, if_true, hdb1, hsw]
  rfl

/-- C1 witness: the amended sequence at the concrete awake state. -/
theorem C1_witness :
    (shutdownHandler true sEx).trace =
      [CPEvent.updateService 0, CPEvent.describeDB, CPEvent.stopDB,
       CPEvent.describeRules, CPEvent.modifyRule lamR.ruleArn 1,
       CPEvent.modifyRule ecsR.ruleArn 2] :=
  C1_shutdown_sequence sEx lamR ecsR (by decide) (by decide) (by decide)

/-- C5 counterexample.  The claim says the readiness wait returns success
only when desired == running >= 1 and pending == 0.  The deployed check
(`src/lambdas/startup/lambda.mjs` lines 28-30) never compares the desired
count: an observation with desired 2, running 1, pending 0 and status ACTIVE
is accepted although desired differs from running. -/
theorem C5_counterexample :
    waitForEcsServiceReady 30 [some ⟨"ACTIVE", 2, 1, 0⟩] = true ∧
    ¬((⟨"ACTIVE", 2, 1, 0⟩ : EcsObs).desiredCount =
        (⟨"ACTIVE", 2, 1, 0⟩ : EcsObs).runningCount) := by
  refine ⟨by decide, by decide⟩

/-- C5 (amended): the readiness wait succeeds exactly when one of the first
30 polled observations satisfies the deployed condition — status ACTIVE,
running count at least 1, pending count 0 (the desired count is not
compared) — and when it fails the startup handler returns the 503 error
response without issuing a single replay attempt. -/
theorem C5_readiness_wait :
    (∀ (n : Nat) (polls : List (Option EcsObs)),
      waitForEcsServiceReady n polls =
        (polls.take n).any (fun o => match o with
          | some obs => ecsServiceReady obs
          | none => false)) ∧
    (∀ (s : ControlPlane) (polls : List (Option EcsObs)) (script : List Attempt),
      waitForEcsServiceReady 30 polls = false →
        (startupHandler none s polls script).response =
          some (errorResponse "ECS service did not become ready within timeout period") ∧
        (startupHandler none s polls script).replayAttempts = 0) := by
  constructor
  · exact waitForEcsServiceReady_eq_any
  · intro s polls script hw
    refine ⟨?_, ?_⟩ <;>
      simp only [startupHandler, hw, Bool.false_eq_true, if_false]

/-- C5 witness: the characterisation at a single ready observation, and the
abort behaviour at an empty poll script. -/
theorem C5_witness :
    waitForEcsServiceReady 30 [some ⟨"ACTIVE", 1, 1, 0⟩] =
      (([some ⟨"ACTIVE", 1, 1, 0⟩] : List (Option EcsObs)).take 30).any
        (fun o => match o with
          | some obs => ecsServiceReady obs
          | none => false) ∧
    (startupHandler none sEx [] []).response =
      some (errorResponse "ECS service did not become ready within timeout period") ∧
    (startupHandler none sEx [] []).replayAttempts = 0 :=
  ⟨C5_readiness_wait.1 30 [some ⟨"ACTIVE", 1, 1, 0⟩],
   C5_readiness_wait.2 sEx [] [] (by decide)⟩

/-- C6: whenever the startup flow fails hard before a replayed backend
response is obtained — the scripted desired-count update throws, or the
readiness wait exhausts its budget — the handler returns HTTP 503 with header
Retry-After: 30 and a JSON body whose fields are exactly message and error. -/
theorem C6_error_contract (updErr : Option String) (s : ControlPlane)
    (polls : List (Option EcsObs)) (script : List Attempt)
    (h : updErr ≠ none ∨ waitForEcsServiceReady 30 polls = false) :
    ∃ r, (startupHandler updErr s polls script).response = some r ∧
      r.statusCode = 503 ∧ ("Retry-After", "30") ∈ r.headers ∧
      jsonFieldNames r.body = some ["message", "error"] := by
  cases updErr with
  | some m =>
    exact ⟨errorResponse m, rfl, rfl, by simp [errorResponse], rfl⟩
  | none =>
    have hw : waitForEcsServiceReady 30 polls = false := by
      rcases h with h | h
      · exact absurd rfl h
      · exact h
    refine ⟨errorResponse "ECS service did not become ready within timeout period",
      ?_, rfl, by simp [errorResponse], rfl⟩
    simp only [startupHandler, hw, Bool.false_eq_true, if_false]

/-- C6 witness: the contract at a run whose desired-count update throws. -/
theorem C6_witness :
    ∃ r, (startupHandler (some "boom") sEx [] []).response = some r ∧
      r.statusCode = 503 ∧ ("Retry-After", "30") ∈ r.headers ∧
      jsonFieldNames r.body = some ["message", "error"] :=
  C6_error_contract (some "boom") sEx [] [] (Or.inl (by simp))

/-- C9: if the desired-count update throws during a shutdown run, the handler
rethrows; the control-plane state is left untouched and the only call issued
is the failed update itself — no database describe/stop and no rule
modification happen. -/
theorem C9_scaler_failure_aborts (s : ControlPlane) :
    (shutdownHandler false s).threw = true ∧
    (shutdownHandler false s).state = s ∧
    (shutdownHandler false s).trace = [CPEvent.updateService 0] :=
  ⟨rfl, rfl, rfl⟩

/-- C7: the routing-rule priority swap is idempotent.  When both managed
rules are discoverable, applying either lambda's swap twice in a row leaves
the rule list exactly as applying it once: the swap re-derives the two rules
from the current state (discovery ignores priorities) and writes the same
absolute priorities again. -/
theorem C7_swap_idempotent (rs : List Rule) (lr er : Rule)
    (hl : rs.find? isLambdaRule = some lr) (he : rs.find? isEcsRule = some er) :
    shutdownSwapRules (shutdownSwapRules rs) = shutdownSwapRules rs ∧
    startupSwapRules (startupSwapRules rs) = startupSwapRules rs := by
  constructor
  · have h1 := shutdownSwapRules_eq rs lr er hl he
    have hfl : (shutdownSwapRules rs).find? isLambdaRule =
        some (setOne er.ruleArn 2 (setOne lr.ruleArn 1 lr)) := by
      rw [h1, find?_swap isLambdaRule setOne_isLambdaRule lr.ruleArn er.ruleArn 1 2 rs, hl]
      rfl
    have hfe : (shutdownSwapRules rs).find? isEcsRule =
        some (setOne er.ruleArn 2 (setOne lr.ruleArn 1 er)) := by
      rw [h1, find?_swap isEcsRule setOne_isEcsRule lr.ruleArn er.ruleArn 1 2 rs, he]
      rfl
    rw [shutdownSwapRules_eq _ _ _ hfl hfe]
    simp only [setOne_ruleArn]
    rw [h1, swap_core_idem]
  · have h1 := startupSwapRules_eq rs lr er hl he
    have hfl : (startupSwapRules rs).find? isLambdaRule =
        some (setOne lr.ruleArn 2 (setOne er.ruleArn 1 lr)) := by
      rw [h1, find?_swap isLambdaRule setOne_isLambdaRule er.ruleArn lr.ruleArn 1 2 rs, hl]
      rfl
    have hfe : (startupSwapRules rs).find? isEcsRule =
        some (setOne lr.ruleArn 2 (setOne er.ruleArn 1 er)) := by
      rw [h1, find?_swap isEcsRule setOne_isEcsRule er.ruleArn lr.ruleArn 1 2 rs, he]
      rfl
    rw [startupSwapRules_eq _ _ _ hfl hfe]
    simp only [setOne_ruleArn]
    rw [h1, swap_core_idem]

/-- C7 witness: idempotency at the concrete two-rule listener. -/
theorem C7_witness :
    shutdownSwapRules (shutdownSwapRules [lamR, ecsR]) = shutdownSwapRules [lamR, ecsR] ∧
    startupSwapRules (startupSwapRules [lamR, ecsR]) = startupSwapRules [lamR, ecsR] :=
  C7_swap_idempotent [lamR, ecsR] lamR ecsR (by decide) (by decide)

/-- C8: on every fault-free fake control-plane state representing the awake
system — backend rule at priority 1, placeholder rule at priority 2 with
pairwise-distinct rule ARNs, desired count 1, database available — running
the shutdown handler and then the startup handler (observing the converged
fake service) returns the rule priorities, the desired count and the
database status to their pre-shutdown values. -/
theorem C8_round_trip (s : ControlPlane) (lr er : Rule) (script : List Attempt)
    (hn : (s.rules.map Rule.ruleArn).Nodup)
    (hl : s.rules.find? isLambdaRule = some lr)
    (he : s.rules.find? isEcsRule = some er)
    (hlp : lr.priority = 2) (hep : er.priority = 1)
    (hd : s.desiredCount = 1) (hdb : s.dbStatus = "available") :
    (startupHandler none (shutdownHandler true s).state
      [some ⟨"ACTIVE", 1, 1, 0⟩] script).state = s := by
  have hfl : (setRulePriority er.ruleArn 2 (setRulePriority lr.ruleArn 1 s.rules)).find?
      isLambdaRule = some (setOne er.ruleArn 2 (setOne lr.ruleArn 1 lr)) := by
    rw [find?_swap isLambdaRule setOne_isLambdaRule lr.ruleArn er.ruleArn 1 2 s.rules, hl]
    rfl
  have hfe : (setRulePriority er.ruleArn 2 (setRulePriority lr.ruleArn 1 s.rules)).find?
      isEcsRule = some (setOne er.ruleArn 2 (setOne lr.ruleArn 1 er)) := by
    rw [find?_swap isEcsRule setOne_isEcsRule lr.ruleArn er.ruleArn 1 2 s.rules, he]
    rfl
  rw [shutdownState_eq s lr er hl he hdb,
    startupState_eq _ (setOne er.ruleArn 2 (setOne lr.ruleArn 1 lr))
      (setOne er.ruleArn 2 (setOne lr.ruleArn 1 er)) _ script hfl hfe rfl]
  simp only [setOne_ruleArn]
  rw [round_trip_rules s.rules lr er hn hl he hlp hep, ← hd, ← hdb]

/-- C8 witness: the round trip at the concrete awake state. -/
theorem C8_witness :
    (startupHandler none (shutdownHandler true sEx).state
      [some ⟨"ACTIVE", 1, 1, 0⟩] [Attempt.httpResponse 200 "ok"]).state = sEx :=
  C8_round_trip sEx lamR ecsR [Attempt.httpResponse 200 "ok"] (by decide) (by decide)
    (by decide) (by decide) (by decide) (by decide) (by decide)

end SpinDown
